import Mathlib

/-!
Verification development for the Py_Ae repository (a PyQt5 desktop manager
for Adobe After Effects project and asset files).  The repository contains
two versions of the application: `py_ae.py` (modelled in namespace `PyAe`)
and `py_ae_v3.py` (modelled in namespace `PyAeV3`).  Shared helpers model
Python string primitives, paths, a JSON value universe, and the filesystem
as the list of files that exist (each with contents and a modification
timestamp).
-/

/-- Models whether the first character list is a leading segment of the second
(helper for the Python substring test `needle in hay`). -/
def leadsWith : List Char → List Char → Bool
  | [], _ => true
  | _ :: _, [] => false
  | c :: cs, d :: ds => c == d && leadsWith cs ds

/-- Models whether the first character list occurs contiguously inside the second. -/
def containsSub (needle : List Char) : List Char → Bool
  | [] => leadsWith needle []
  | d :: ds => leadsWith needle (d :: ds) || containsSub needle ds

/-- Models the Python expression `needle in hay` on strings. -/
def pyStrIn (needle hay : String) : Bool :=
  containsSub needle.toList hay.toList

/-- Models Python `str.lower` (character-wise, as the sources use it on
ASCII file names). -/
def pyLower (s : String) : String :=
  String.mk (s.toList.map Char.toLower)

/-- The empty string is a substring of everything, as in Python. -/
theorem containsSub_nil (l : List Char) : containsSub [] l = true := by
  cases l <;> simp [containsSub, leadsWith]

/-- Helper for `pathName`: keeps the characters seen since the last path
separator (both `/` and `\` separate, as for `pathlib` on Windows). -/
def pathNameAux (acc : List Char) : List Char → List Char
  | [] => acc
  | c :: cs =>
    if c == '/' || c == '\\' then pathNameAux [] cs
    else pathNameAux (acc ++ [c]) cs

/-- Models `Path(p).name` / `os.path.basename(p)`: the final component of a
path (for paths without a trailing separator, the forms the sources build). -/
def pathName (p : String) : String :=
  String.mk (pathNameAux [] p.toList)

/-- Worker for `replaceChars`: while `skip` is positive the character
belongs to an already-replaced occurrence and is dropped; at `skip = 0` a
match of `pat` emits `rep` and schedules the rest of the occurrence to be
skipped. -/
def replaceAux (pat rep : List Char) : Nat → List Char → List Char
  | _, [] => []
  | Nat.succ k, _ :: cs => replaceAux pat rep k cs
  | 0, c :: cs =>
    if pat.length != 0 && leadsWith pat (c :: cs) then
      rep ++ replaceAux pat rep (pat.length - 1) cs
    else
      c :: replaceAux pat rep 0 cs

/-- Models Python `str.replace` at the character-list level: non-overlapping
replacement of `pat` by `rep`, scanning left to right. -/
def replaceChars (pat rep l : List Char) : List Char :=
  replaceAux pat rep 0 l

/-- Models Python `s.replace(pat, rep)` (for the non-empty patterns the
sources use). -/
def pyReplace (s pat rep : String) : String :=
  String.mk (replaceChars pat.toList rep.toList s.toList)

/-- JSON values, the universe `json.loads` / `json.dumps` work over.  The
settings blobs of the application are serialized into this universe; object
fields keep insertion order, and the objects the application writes have
distinct keys. -/
inductive Json where
  | null
  | bool (b : Bool)
  | num (n : Int)
  | str (s : String)
  | arr (items : List Json)
  | obj (fields : List (String × Json))

/-- Models a Python dict lookup `d[k]` / `d.get(k)` on a JSON object
(first occurrence; the application only writes objects with distinct keys). -/
def Json.lookup (j : Json) (k : String) : Option Json :=
  match j with
  | .obj fields => List.lookup k fields
  | _ => none

/-- Models `isinstance(x, dict)` on a decoded JSON value. -/
def Json.isObj : Json → Bool
  | .obj _ => true
  | _ => false

/-- One entry of `last_project_files` as kept in memory by `py_ae_v3`:
a file path plus the creator recorded with it.  The in-memory `Path`
object is represented by its (normalised) string form. -/
structure ProjectRec where
  path : String
  created_by : String
deriving DecidableEq, Repr

/-- One entry of `imported_assets` as kept in memory by `py_ae_v3`. -/
structure AssetRec where
  path : String
  last_modified : String
  imported_by : String
deriving DecidableEq, Repr

/-- Python exceptions that the settings-loading code can raise (only
`json.JSONDecodeError` is caught by the sources). -/
inductive PyErr where
  | keyError (k : String)
  | typeError
deriving DecidableEq, Repr

/-- A stored settings value as seen by `json.loads`: either a string that
is not valid JSON (loads raises `JSONDecodeError`), or a string that
decodes to the given JSON value. -/
inductive Blob where
  | malformed (s : String)
  | wellFormed (j : Json)

/-- Button answers of the `QMessageBox.question` confirmation dialogs. -/
inductive Answer where
  | yes
  | no
  | cancel
deriving DecidableEq, Repr

/-- Outcome of a `subprocess.run(..., check=True)` call: normal return or a
`CalledProcessError` from a non-zero exit status. -/
inductive RunRes where
  | success
  | nonzeroExit
deriving DecidableEq, Repr

/-- What is handed to the operating system: either an argument vector
(`subprocess.run` on a list) or a single command-line string
(`subprocess.run` on a string). -/
inductive Cmd where
  | argv (args : List String)
  | line (cmdline : String)
deriving DecidableEq, Repr

/-- A file that exists on disk, with contents and modification timestamp. -/
structure DiskFile where
  path : String
  contents : String
  mtime : String
deriving DecidableEq, Repr

/-- Models `Path(p).exists()` against the list of files on disk. -/
def pathExistsB (disk : List DiskFile) (p : String) : Bool :=
  (disk.find? (fun f => f.path == p)).isSome

/-- Models reading `stat().st_mtime` of an existing file (callers only use
it after an existence check). -/
def mtimeOf (disk : List DiskFile) (p : String) : String :=
  ((disk.find? (fun f => f.path == p)).map DiskFile.mtime).getD ""

/-- Models `os.remove(p)`: the path no longer exists afterwards. -/
def os_remove (disk : List DiskFile) (p : String) : List DiskFile :=
  disk.filter (fun f => f.path != p)

/-- Models `shutil.copyfile(src, dst)` given the source contents: `dst` now
exists with those contents and a fresh modification time. -/
def shutil_copyfile (disk : List DiskFile) (dstPath contents mtime : String) : List DiskFile :=
  ⟨dstPath, contents, mtime⟩ :: disk.filter (fun f => f.path != dstPath)

/-- A displayed table row of the projects table:
(name column, file-path column, last-modified column, creator column). -/
abbrev TableRow := String × String × String × String

/-- A row of the projects table as persisted by `py_ae`
(`_collect_table_data` keys, in column order). -/
structure SavedRow where
  name : String
  path : String
  modified : String
  createdBy : String
deriving DecidableEq, Repr

/-- A row of the imported-assets table as the `filter_assets` loop sees it:
the column-0 item (absent when `table.item(row, 0)` is `None`), the other
cells, and the row-hidden flag. -/
structure AssetRow where
  nameItem : Option String
  cells : List String
  hidden : Bool
deriving DecidableEq, Repr

/-- Models `filter_assets` (identical in `py_ae.py` and `py_ae_v3.py`): the
search-bar text is lowercased once, then each row with a column-0 item is
hidden exactly when the lowered item text does not contain it; rows without
a column-0 item are left untouched, and no cell is written. -/
def filter_assets (search_bar_text : String) (rows : List AssetRow) : List AssetRow :=
  let search_text := pyLower search_bar_text
  rows.map fun r =>
    match r.nameItem with
    | none => r
    | some nm =>
      if pyStrIn search_text (pyLower nm) then { r with hidden := false }
      else { r with hidden := true }

/-- Appending elements one by one in a left fold is the same as appending
the mapped list (shape of the row-insertion loops in both sources). -/
theorem foldl_push_eq_map {α β : Type} (f : α → β) (l : List α) (acc : List β) :
    l.foldl (fun r x => r ++ [f x]) acc = acc ++ l.map f := by
  induction l generalizing acc with
  | nil => simp
  | cons x xs ih => simp [List.foldl, ih]

/-- Conditionally appending elements in a left fold is the same as
appending the filtered list (shape of the skip-missing-files loops). -/
theorem foldl_filter_push {α : Type} (p : α → Bool) (l : List α) (acc : List α) :
    l.foldl (fun r x => if p x then r ++ [x] else r) acc = acc ++ l.filter p := by
  induction l generalizing acc with
  | nil => simp
  | cons x xs ih =>
    by_cases h : p x <;> simp [List.foldl, h, ih, List.filter_cons]

/-- A filter keeps a list whole when every element satisfies the predicate. -/
theorem filter_eq_self_of_all {α : Type} (p : α → Bool) (l : List α)
    (h : ∀ a ∈ l, p a = true) : l.filter p = l := by
  induction l with
  | nil => rfl
  | cons a as ih =>
    have ha := h a (by simp)
    have hrest := ih (fun b hb => h b (by simp [hb]))
    simp [List.filter_cons, ha, hrest]

/-- A filter drops a list entirely when no element satisfies the predicate. -/
theorem filter_eq_nil_of_none {α : Type} (p : α → Bool) (l : List α)
    (h : ∀ a ∈ l, p a = false) : l.filter p = [] := by
  induction l with
  | nil => rfl
  | cons a as ih =>
    have ha := h a (by simp)
    have hrest := ih (fun b hb => h b (by simp [hb]))
    simp [List.filter_cons, ha, hrest]

/-- Removing the disk entries at `p` does not affect `find?` for another
path `q`. -/
theorem find?_filter_path_ne (disk : List DiskFile) (p q : String) (h : q ≠ p) :
    (disk.filter (fun f => f.path != p)).find? (fun f => f.path == q) =
      disk.find? (fun f => f.path == q) := by
  induction disk with
  | nil => rfl
  | cons f fs ih =>
    by_cases hf : f.path = p
    · have h1 : (f.path != p) = false := by simp [hf]
      have h2 : (f.path == q) = false := by
        rw [hf]
        exact beq_eq_false_iff_ne.mpr (Ne.symm h)
      simp [List.filter_cons, h1, List.find?, h2, ih]
    · have h1 : (f.path != p) = true := by simp [hf]
      by_cases hfq : f.path = q
      · have h2 : (f.path == q) = true := by simp [hfq]
        simp [List.filter_cons, h1, List.find?, h2]
      · have h2 : (f.path == q) = false := by simp [hfq]
        simp [List.filter_cons, h1, List.find?, h2, ih]

/-- `os.remove` at one path leaves existence of another path unchanged. -/
theorem pathExistsB_os_remove_ne (disk : List DiskFile) (p q : String) (h : q ≠ p) :
    pathExistsB (os_remove disk p) q = pathExistsB disk q := by
  simp [pathExistsB, os_remove, find?_filter_path_ne disk p q h]

/-- `os.remove` makes its own path no longer exist. -/
theorem pathExistsB_os_remove_self (disk : List DiskFile) (p : String) :
    pathExistsB (os_remove disk p) p = false := by
  induction disk with
  | nil => rfl
  | cons f fs ih =>
    by_cases hf : f.path = p
    · have h1 : (f.path != p) = false := by simp [hf]
      simp only [os_remove, List.filter_cons, h1] at ih ⊢
      simp only [Bool.false_eq_true, if_false]
      exact ih
    · have h1 : (f.path != p) = true := by simp [hf]
      have h2 : (f.path == p) = false := by simp [hf]
      simp [pathExistsB, os_remove, List.filter_cons, h1, List.find?, h2, ih]

/-- Copying to one path leaves `find?` for another path unchanged. -/
theorem find?_copyfile_ne (disk : List DiskFile) (dst c m q : String) (h : q ≠ dst) :
    (shutil_copyfile disk dst c m).find? (fun f => f.path == q) =
      disk.find? (fun f => f.path == q) := by
  have hq : (dst == q) = false := by
    simp
    exact fun hh => h hh.symm
  simp [shutil_copyfile, List.find?, hq, find?_filter_path_ne disk dst q h]

/-- Copying to one path leaves existence of another path unchanged. -/
theorem pathExistsB_copyfile_ne (disk : List DiskFile) (dst c m q : String) (h : q ≠ dst) :
    pathExistsB (shutil_copyfile disk dst c m) q = pathExistsB disk q := by
  simp [pathExistsB, find?_copyfile_ne disk dst c m q h]

/-- Copying to one path leaves the timestamp of another path unchanged. -/
theorem mtimeOf_copyfile_ne (disk : List DiskFile) (dst c m q : String) (h : q ≠ dst) :
    mtimeOf (shutil_copyfile disk dst c m) q = mtimeOf disk q := by
  simp [mtimeOf, find?_copyfile_ne disk dst c m q h]

/-- The copied file exists with the fresh timestamp. -/
theorem find?_copyfile_self (disk : List DiskFile) (dst c m : String) :
    (shutil_copyfile disk dst c m).find? (fun f => f.path == dst) = some ⟨dst, c, m⟩ := by
  simp [shutil_copyfile, List.find?]

namespace PyAeV3

/-- Serialization of one `last_project_files` entry performed by
`save_settings` in `py_ae_v3.py`:
`{"path": str(project["path"]), "created_by": project["created_by"]}`. -/
def projectToJson (p : ProjectRec) : Json :=
  Json.obj [("path", Json.str p.path), ("created_by", Json.str p.created_by)]

/-- Serialization of one `imported_assets` entry, as built by
`update_imported_assets` and dumped by `save_settings`. -/
def assetToJson (a : AssetRec) : Json :=
  Json.obj [("path", Json.str a.path), ("last_modified", Json.str a.last_modified),
            ("imported_by", Json.str a.imported_by)]

/-- The two settings keys written by `save_settings` of `py_ae_v3.py`. -/
structure Settings where
  last_project_files : Blob
  imported_assets : Blob

/-- Models `save_settings` of `py_ae_v3.py`: both lists are serialized with
`json.dumps` and stored; `dumps` always produces a well-formed blob. -/
def save_settings (projects : List ProjectRec) (assets : List AssetRec) : Settings :=
  { last_project_files := Blob.wellFormed (Json.arr (projects.map projectToJson)),
    imported_assets := Blob.wellFormed (Json.arr (assets.map assetToJson)) }

/-- Models Python iteration `for x in v` over a decoded JSON value: a list
yields its elements, a dict yields its keys, a string yields its
one-character substrings, and any other value raises `TypeError`. -/
def iterEntries : Json → Except PyErr (List Json)
  | Json.arr items => Except.ok items
  | Json.obj fields => Except.ok (fields.map (fun kv => Json.str kv.1))
  | Json.str s => Except.ok (s.toList.map (fun c => Json.str (String.mk [c])))
  | _ => Except.error PyErr.typeError

/-- Models the element expression of the `load_settings` comprehension of
`py_ae_v3.py`:
`{"path": Path(project["path"]), "created_by": project.get("created_by", "Unknown")}`.
A missing `"path"` key raises `KeyError`; a non-string `"path"` makes the
`Path(...)` call raise `TypeError`.  A non-string `"created_by"` value is
represented as the `TypeError` its first use as a table item would raise
(the serialized data only ever holds strings there). -/
def parseProjectEntry (j : Json) : Except PyErr ProjectRec :=
  match j.lookup "path" with
  | none => Except.error (PyErr.keyError "path")
  | some (Json.str p) =>
    match j.lookup "created_by" with
    | some (Json.str c) => Except.ok ⟨p, c⟩
    | none => Except.ok ⟨p, "Unknown"⟩
    | some _ => Except.error PyErr.typeError
  | some _ => Except.error PyErr.typeError

/-- The comprehension of `load_settings` over the already-filtered dict
entries, evaluated left to right; the first raised exception propagates. -/
def parseProjects : List Json → Except PyErr (List ProjectRec)
  | [] => Except.ok []
  | j :: rest =>
    match parseProjectEntry j with
    | Except.error e => Except.error e
    | Except.ok p =>
      match parseProjects rest with
      | Except.error e => Except.error e
      | Except.ok ps => Except.ok (p :: ps)

/-- Models the `last_project_files` branch of `load_settings` in
`py_ae_v3.py`: a `json.JSONDecodeError` is caught and yields the empty
list; otherwise the decoded value is iterated, entries that are not dicts
are dropped by the `isinstance(project, dict)` guard, and the remaining
entries go through the comprehension. -/
def loadProjectsBlob : Blob → Except PyErr (List ProjectRec)
  | Blob.malformed _ => Except.ok []
  | Blob.wellFormed j =>
    match iterEntries j with
    | Except.error e => Except.error e
    | Except.ok entries => parseProjects (entries.filter Json.isObj)

/-- Models the accesses `load_settings` performs on one decoded asset entry
when repopulating the imported-assets table:
`os.path.basename(asset["path"])`, `asset["last_modified"]`,
`asset.get("imported_by", "Unknown")`.  A non-dict entry raises `TypeError`
at the first subscript. -/
def parseAssetEntry (j : Json) : Except PyErr AssetRec :=
  match j with
  | Json.obj _ =>
    match j.lookup "path" with
    | none => Except.error (PyErr.keyError "path")
    | some (Json.str p) =>
      match j.lookup "last_modified" with
      | none => Except.error (PyErr.keyError "last_modified")
      | some (Json.str m) =>
        match j.lookup "imported_by" with
        | some (Json.str u) => Except.ok ⟨p, m, u⟩
        | none => Except.ok ⟨p, m, "Unknown"⟩
        | some _ => Except.error PyErr.typeError
      | some _ => Except.error PyErr.typeError
    | some _ => Except.error PyErr.typeError
  | _ => Except.error PyErr.typeError

/-- The asset-population loop of `load_settings`, entry by entry. -/
def parseAssets : List Json → Except PyErr (List AssetRec)
  | [] => Except.ok []
  | j :: rest =>
    match parseAssetEntry j with
    | Except.error e => Except.error e
    | Except.ok a =>
      match parseAssets rest with
      | Except.error e => Except.error e
      | Except.ok rest2 => Except.ok (a :: rest2)

/-- Models the `imported_assets` branch of `load_settings` in
`py_ae_v3.py`: a `json.JSONDecodeError` yields the empty list, otherwise
the decoded value is taken as is and immediately iterated by the
table-population loop of the same function. -/
def loadAssetsBlob : Blob → Except PyErr (List AssetRec)
  | Blob.malformed _ => Except.ok []
  | Blob.wellFormed j =>
    match iterEntries j with
    | Except.error e => Except.error e
    | Except.ok entries => parseAssets entries

/-- Models the parsing phase of `load_settings` of `py_ae_v3.py` (the part
that rebuilds `last_project_files` and `imported_assets` from the two
stored blobs; the subsequent table repopulation is modelled by
`populate_last_projects_table`). -/
def load_settings (s : Settings) : Except PyErr (List ProjectRec × List AssetRec) :=
  match loadProjectsBlob s.last_project_files with
  | Except.error e => Except.error e
  | Except.ok ps =>
    match loadAssetsBlob s.imported_assets with
    | Except.error e => Except.error e
    | Except.ok as => Except.ok (ps, as)

/-- Parsing a serialized project entry recovers the record. -/
theorem parseProjectEntry_projectToJson (p : ProjectRec) :
    parseProjectEntry (projectToJson p) = Except.ok p := rfl

/-- Parsing a serialized asset entry recovers the record. -/
theorem parseAssetEntry_assetToJson (a : AssetRec) :
    parseAssetEntry (assetToJson a) = Except.ok a := rfl

end PyAeV3

/-- Serialized project lists parse back to themselves. -/
theorem parseProjects_roundtrip (ps : List ProjectRec) :
    PyAeV3.parseProjects ((ps.map PyAeV3.projectToJson).filter Json.isObj) =
      Except.ok ps := by
  induction ps with
  | nil => rfl
  | cons p rest ih =>
    have h1 : Json.isObj (PyAeV3.projectToJson p) = true := rfl
    simp [List.filter_cons, h1, PyAeV3.parseProjects,
      PyAeV3.parseProjectEntry_projectToJson, ih]

/-- Serialized asset lists parse back to themselves. -/
theorem parseAssets_roundtrip (as : List AssetRec) :
    PyAeV3.parseAssets (as.map PyAeV3.assetToJson) = Except.ok as := by
  induction as with
  | nil => rfl
  | cons a rest ih =>
    simp [PyAeV3.parseAssets, PyAeV3.parseAssetEntry_assetToJson, ih]

/-- Claim C1: for every in-memory list of project records (path plus
creator) and every list of imported-asset records, saving the settings with
`save_settings` and then parsing them back with `load_settings` (both of
`py_ae_v3.py`) restores equal lists: JSON serialization followed by
deserialization of the settings blob is the identity on these flat lists of
file records. -/
theorem c1_settings_roundtrip (ps : List ProjectRec) (as : List AssetRec) :
    PyAeV3.load_settings (PyAeV3.save_settings ps as) = Except.ok (ps, as) := by
  simp [PyAeV3.load_settings, PyAeV3.save_settings, PyAeV3.loadProjectsBlob,
    PyAeV3.loadAssetsBlob, PyAeV3.iterEntries, parseProjects_roundtrip,
    parseAssets_roundtrip]

/-- Claim C9: `load_settings` of `py_ae_v3.py` never propagates a JSON
parse error.  A stored `last_project_files` or `imported_assets` string
that is not valid JSON makes the corresponding in-memory list empty,
loading then continues with the other blob, and entries of the projects
JSON that are not dictionaries are silently dropped rather than raising. -/
theorem c9_load_settings_json_safety :
    (∀ s, PyAeV3.loadProjectsBlob (Blob.malformed s) = Except.ok [])
    ∧ (∀ s, PyAeV3.loadAssetsBlob (Blob.malformed s) = Except.ok [])
    ∧ (∀ s ablob, PyAeV3.load_settings ⟨Blob.malformed s, ablob⟩ =
        match PyAeV3.loadAssetsBlob ablob with
        | Except.error e => Except.error e
        | Except.ok as => Except.ok ([], as))
    ∧ (∀ extra items, (∀ j ∈ extra, Json.isObj j = false) →
        PyAeV3.loadProjectsBlob (Blob.wellFormed (Json.arr (extra ++ items))) =
          PyAeV3.loadProjectsBlob (Blob.wellFormed (Json.arr items))) := by
  refine ⟨fun s => rfl, fun s => rfl, fun s ablob => ?_, fun extra items h => ?_⟩
  · cases hb : PyAeV3.loadAssetsBlob ablob <;>
      simp [PyAeV3.load_settings, PyAeV3.loadProjectsBlob, hb]
  · simp [PyAeV3.loadProjectsBlob, PyAeV3.iterEntries, List.filter_append,
      filter_eq_nil_of_none Json.isObj extra h]

/-- Witness for C9: prepending three concrete non-dictionary JSON entries
to a concrete serialized project list does not change what is loaded. -/
theorem c9_witness :
    (∀ j ∈ [Json.num 3, Json.str "junk", Json.null], Json.isObj j = false)
    ∧ PyAeV3.loadProjectsBlob (Blob.wellFormed (Json.arr
        ([Json.num 3, Json.str "junk", Json.null] ++
          [PyAeV3.projectToJson ⟨"C:/proj/A.aep", "marty"⟩]))) =
      PyAeV3.loadProjectsBlob (Blob.wellFormed (Json.arr
        [PyAeV3.projectToJson ⟨"C:/proj/A.aep", "marty"⟩])) :=
  ⟨by decide, c9_load_settings_json_safety.2.2.2
    [Json.num 3, Json.str "junk", Json.null]
    [PyAeV3.projectToJson ⟨"C:/proj/A.aep", "marty"⟩] (by decide)⟩

/-- The empty Python string lowers to itself. -/
theorem pyLower_empty : pyLower "" = "" := rfl

/-- The empty string is a substring of every string, as in Python. -/
theorem pyStrIn_empty_left (s : String) : pyStrIn "" s = true := by
  simp [pyStrIn, containsSub_nil]

/-- Claim C10: `filter_assets` is view-only.  For every table state and
search string it only toggles row visibility: the column items of every row
survive unchanged and no row is inserted or removed (the stored asset
records are not even an input of the function, matching the source, whose
only write is `setRowHidden`).  Running it with the empty search string
makes every row that has a name item visible. -/
theorem c10_filter_assets_view_only (search_bar_text : String) (rows : List AssetRow) :
    ((filter_assets search_bar_text rows).map (fun r => (r.nameItem, r.cells)) =
      rows.map (fun r => (r.nameItem, r.cells)))
    ∧ (filter_assets search_bar_text rows).length = rows.length
    ∧ (filter_assets "" rows).all (fun r => !r.nameItem.isSome || !r.hidden) = true := by
  refine ⟨?_, by simp [filter_assets], ?_⟩
  · induction rows with
    | nil => rfl
    | cons r rest ih =>
      cases h : r.nameItem with
      | none => simpa [filter_assets, h] using ih
      | some nm =>
        by_cases hq : pyStrIn (pyLower search_bar_text) (pyLower nm) = true <;>
          simpa [filter_assets, h, hq] using ih
  · induction rows with
    | nil => rfl
    | cons r rest ih =>
      cases h : r.nameItem with
      | none => simpa [filter_assets, h] using ih
      | some nm =>
        simpa [filter_assets, h, pyLower_empty, pyStrIn_empty_left] using ih

namespace PyAe

/-- Models `filter_projects` of `py_ae.py`: the body only prints the
placeholder message "need to rewrite - substring: ...", so the displayed
records are left unchanged whatever the query is (although the docstring
says it filters the displayed projects by the search input). -/
def filter_projects (last_project_files : List String) (sub_string : String) : List String :=
  last_project_files

end PyAe

namespace PyAeV3

/-- Models `filter_projects` of `py_ae_v3.py`: an empty (falsy) query resets
the record list to `load_all_projects()` (passed here as `all_projects`)
and repopulates; a non-empty query keeps exactly the records whose file
name, lowercased, contains the lowercased query. -/
def filter_projects (all_projects last_project_files : List String) (text : String) :
    List String :=
  if text.isEmpty then all_projects
  else last_project_files.filter
    (fun project => pyStrIn (pyLower text) (pyLower (pathName project)))

end PyAeV3

/-- Claim C2 (code bug in `py_ae.py`): evaluation at the failing input.  The
`filter_projects` stub of `py_ae.py` retains the record "Alpha.aep" even
though it does not contain the query "beta", contradicting both the claim
and its own docstring; the other conjuncts show that `filter_projects` of
`py_ae_v3.py` and the shared `filter_assets` do implement the claimed
case-insensitive substring filtering, with the empty query showing every
record. -/
theorem c2_filter_projects_stub_bug :
    PyAe.filter_projects ["Alpha.aep", "Beta.aep"] "beta" = ["Alpha.aep", "Beta.aep"]
    ∧ PyAeV3.filter_projects ["C:/p/Alpha.aep", "C:/p/Beta.aep"]
        ["C:/p/Alpha.aep", "C:/p/Beta.aep"] "BETA" = ["C:/p/Beta.aep"]
    ∧ PyAeV3.filter_projects ["C:/p/Alpha.aep", "C:/p/Beta.aep"] [] "" =
        ["C:/p/Alpha.aep", "C:/p/Beta.aep"]
    ∧ filter_assets "Alpha"
        [⟨some "night_ALPHA_v2.mov", ["c1"], true⟩, ⟨some "beta.png", ["c2"], false⟩] =
        [⟨some "night_ALPHA_v2.mov", ["c1"], false⟩, ⟨some "beta.png", ["c2"], true⟩] :=
  ⟨rfl, by decide, by decide, by decide⟩

namespace PyAeV3

/-- A displayed row built by `populate_last_projects_table` of
`py_ae_v3.py`: the name column is the final component of the path, the
last-modified column is read from `stat` on disk, and the creator column
comes from the record. -/
def projectRow (disk : List DiskFile) (p : ProjectRec) : TableRow :=
  (pathName p.path, p.path, mtimeOf disk p.path, p.created_by)

/-- Models `populate_last_projects_table` of `py_ae_v3.py`: the table is
reset to zero rows, `last_project_files` is reduced to the records whose
file still exists on disk, and one row per remaining record is inserted in
order.  The result is the new record list together with the displayed
rows. -/
def populate_last_projects_table (disk : List DiskFile) (files : List ProjectRec) :
    List ProjectRec × List TableRow :=
  let existing := files.filter (fun p => pathExistsB disk p.path)
  (existing, existing.foldl (fun rows p => rows ++ [projectRow disk p]) [])

end PyAeV3

namespace PyAe

/-- Models `_load_project_settings` of `py_ae.py`: each saved row whose file
path no longer exists on disk is skipped (`continue`); the rest are added
to the initially empty projects table in order. -/
def load_project_settings (disk : List DiskFile) (saved : List SavedRow) : List SavedRow :=
  saved.foldl (fun table i => if pathExistsB disk i.path then table ++ [i] else table) []

/-- Models `_load_asset_settings` of `py_ae.py`: the same skip-missing loop
for the imported-assets table. -/
def load_asset_settings (disk : List DiskFile) (saved : List SavedRow) : List SavedRow :=
  saved.foldl (fun table i => if pathExistsB disk i.path then table ++ [i] else table) []

end PyAe

/-- Claim C8: whenever a projects table is populated from stored records,
records whose file path does not exist on disk are pruned.  In `py_ae_v3`,
`populate_last_projects_table` reduces `last_project_files` to exactly the
existing entries, and the displayed rows are exactly the row images of the
reduced list (in particular list and table stay in one-to-one
correspondence, and every displayed row refers to a file that existed at
population time); in `py_ae`, the two startup loaders keep exactly the
saved rows whose path exists. -/
theorem c8_population_prunes_missing (disk : List DiskFile) (files : List ProjectRec)
    (saved : List SavedRow) :
    (PyAeV3.populate_last_projects_table disk files).1 =
        files.filter (fun p => pathExistsB disk p.path)
    ∧ (PyAeV3.populate_last_projects_table disk files).2 =
        (files.filter (fun p => pathExistsB disk p.path)).map (PyAeV3.projectRow disk)
    ∧ (PyAeV3.populate_last_projects_table disk files).2 =
        ((PyAeV3.populate_last_projects_table disk files).1).map (PyAeV3.projectRow disk)
    ∧ PyAe.load_project_settings disk saved = saved.filter (fun r => pathExistsB disk r.path)
    ∧ PyAe.load_asset_settings disk saved = saved.filter (fun r => pathExistsB disk r.path) := by
  refine ⟨rfl, ?_, ?_, ?_, ?_⟩
  · simp [PyAeV3.populate_last_projects_table, foldl_push_eq_map]
  · simp [PyAeV3.populate_last_projects_table, foldl_push_eq_map]
  · simp [PyAe.load_project_settings, foldl_filter_push]
  · simp [PyAe.load_asset_settings, foldl_filter_push]

namespace PyAeV3

/-- Models `is_after_effects_running` of `py_ae_v3.py`: the system process
list is polled and the function returns true exactly when some running
process has a name containing "AfterFX.exe". -/
def is_after_effects_running (procs : List String) : Bool :=
  procs.any (fun nm => pyStrIn "AfterFX.exe" nm)

/-- Models `get_after_effects_path` of `py_ae_v3.py`: the settings value is
returned unless it is empty or `os.path.isfile` fails for it (the outcome
of that check is the second argument), in which case an error dialog is
shown and `None` is returned. -/
def get_after_effects_path (aePath : String) (aePathIsFile : Bool) : Option String :=
  if aePath.isEmpty || !aePathIsFile then none else some aePath

/-- Models `get_assets_folder_path` of `py_ae_v3.py` (same shape, with
`os.path.exists` on the folder). -/
def get_assets_folder_path (assetsFolder : String) (folderExists : Bool) : Option String :=
  if assetsFolder.isEmpty || !folderExists then none else some assetsFolder

/-- Models `tempfile.mktemp(suffix=".jsx")`: a fresh temporary path carrying
the requested suffix. -/
def mktemp_jsx (seed : String) : String := seed ++ ".jsx"

/-- Models the `corrected_path` computation of `execute_jsx_script` in
`py_ae_v3.py`: every backslash of the asset path is doubled, so that the
JavaScript string literal in the generated snippet denotes the original
path. -/
def corrected_path (file_path : String) : String :=
  pyReplace file_path "\\" "\\\\"

/-- The JSX snippet text written by `execute_jsx_script` of `py_ae_v3.py`,
as a function of the already-escaped asset path. -/
def jsx_import_script (cp : String) : String :=
  "\n            var fileToImport = new File(\"" ++ cp ++
    "\");\n            if (fileToImport.exists) \x7b\n                app.project.importFile(new ImportOptions(fileToImport));\n            \x7d else \x7b\n                alert(\x27File does not exist: " ++
    cp ++ "\x27);\n        "

/-- Models `execute_jsx_script` of `py_ae_v3.py`: the snippet referencing
the escaped asset path is written to a fresh `.jsx` temporary file, and the
host executable is launched with exactly the argument list
`[aePath, "-r", script_file_path]`.  Returns the written script text and
the launched argument list. -/
def execute_jsx_script (aePath file_path script_file_path : String) : String × List String :=
  (jsx_import_script (corrected_path file_path), [aePath, "-r", script_file_path])

/-- Environment of one `import_file_connection` run: the polled process
names, the two settings values with the outcome of their filesystem checks,
the file chosen in the dialog (empty when the dialog was cancelled), the OS
user name, the formatted current time, and the seed of the temporary
script path. -/
structure ImportEnv where
  procs : List String
  aePath : String
  aePathIsFile : Bool
  assetsFolder : String
  assetsFolderExists : Bool
  chosenFile : String
  user : String
  now : String
  tmpSeed : String
deriving DecidableEq, Repr

/-- The asset records and displayed asset rows that
`import_file_connection` can change. -/
structure ImportState where
  imported_assets : List AssetRec
  assetRows : List TableRow
deriving DecidableEq, Repr

/-- Everything one `import_file_connection` run does: the resulting state,
the error dialog shown (title and text), the file copies performed, the
script files written, and the commands launched. -/
structure ImportOutcome where
  state : ImportState
  errorShown : Option (String × String)
  copies : List (String × String)
  scriptsWritten : List String
  commandsRun : List (List String)
deriving DecidableEq, Repr

/-- Models `import_file_connection` of `py_ae_v3.py`.  The process list is
polled first; without a running "AfterFX.exe" process an error dialog is
shown and the function returns with nothing copied, written, launched or
changed.  Otherwise the settings are validated, the user picks a file, the
file is copied into the assets folder (`shutil.copy` returns
`folder/basename`), the JSX import script for the copied file is executed,
and one asset record and table row are appended. -/
def import_file_connection (env : ImportEnv) (st : ImportState) : ImportOutcome :=
  if !is_after_effects_running env.procs then
    { state := st,
      errorShown := some ("After Effects Not Running",
        "Adobe After Effects must be open to import assets."),
      copies := [], scriptsWritten := [], commandsRun := [] }
  else
    match get_after_effects_path env.aePath env.aePathIsFile with
    | none =>
      { state := st,
        errorShown := some ("Error",
          "After Effects executable path is not set correctly in settings."),
        copies := [], scriptsWritten := [], commandsRun := [] }
    | some aePath =>
      match get_assets_folder_path env.assetsFolder env.assetsFolderExists with
      | none =>
        { state := st,
          errorShown := some ("Assets folder not set",
            "Please set the assets folder path in settings."),
          copies := [], scriptsWritten := [], commandsRun := [] }
      | some assetsFolder =>
        if env.chosenFile.isEmpty then
          { state := st, errorShown := none,
            copies := [], scriptsWritten := [], commandsRun := [] }
        else
          let destination := assetsFolder ++ "/" ++ pathName env.chosenFile
          let script := execute_jsx_script aePath destination (mktemp_jsx env.tmpSeed)
          { state :=
              { imported_assets :=
                  st.imported_assets ++ [⟨env.chosenFile, env.now, env.user⟩],
                assetRows :=
                  st.assetRows ++
                    [(pathName env.chosenFile, env.chosenFile, env.now, env.user)] },
            errorShown := none,
            copies := [(env.chosenFile, destination)],
            scriptsWritten := [script.1],
            commandsRun := [script.2] }

end PyAeV3

/-- Claim C3: `import_file_connection` of `py_ae_v3.py` imports only into a
running After Effects instance.  It first polls the process list; when no
process name contains "AfterFX.exe" it shows the error dialog and returns
without copying any file, writing any script, launching any command, or
changing the imported-assets records or table; and whenever the import did
copy a file, a matching process existed. -/
theorem c3_import_requires_running (env : PyAeV3.ImportEnv) (st : PyAeV3.ImportState) :
    (PyAeV3.is_after_effects_running env.procs = false →
      PyAeV3.import_file_connection env st =
        { state := st,
          errorShown := some ("After Effects Not Running",
            "Adobe After Effects must be open to import assets."),
          copies := [], scriptsWritten := [], commandsRun := [] })
    ∧ ((PyAeV3.import_file_connection env st).copies ≠ [] →
        PyAeV3.is_after_effects_running env.procs = true) := by
  constructor
  · intro h
    simp [PyAeV3.import_file_connection, h]
  · intro hc
    by_cases h : PyAeV3.is_after_effects_running env.procs = true
    · exact h
    · exfalso
      apply hc
      simp at h
      simp [PyAeV3.import_file_connection, h]

/-- Witness for C3: with only "explorer.exe" and "svchost.exe" running,
`import_file_connection` shows the error dialog and changes nothing. -/
theorem c3_witness :
    PyAeV3.is_after_effects_running ["explorer.exe", "svchost.exe"] = false
    ∧ PyAeV3.import_file_connection
        ⟨["explorer.exe", "svchost.exe"], "C:/ae/AfterFX.exe", true, "C:/assets", true,
          "C:/downloads/a.png", "marty", "2024-03-17 10:00:00", "C:/tmp/tmp123"⟩
        ⟨[], []⟩ =
      { state := ⟨[], []⟩,
        errorShown := some ("After Effects Not Running",
          "Adobe After Effects must be open to import assets."),
        copies := [], scriptsWritten := [], commandsRun := [] } :=
  ⟨by decide,
    (c3_import_requires_running
      ⟨["explorer.exe", "svchost.exe"], "C:/ae/AfterFX.exe", true, "C:/assets", true,
        "C:/downloads/a.png", "marty", "2024-03-17 10:00:00", "C:/tmp/tmp123"⟩
      ⟨[], []⟩).1 (by decide)⟩

namespace PyAeV3

/-- The state `delete_project` of `py_ae_v3.py` acts on: the record list
and the files on disk (the displayed table is rebuilt from these by
`populate_last_projects_table`). -/
structure ProjState where
  files : List ProjectRec
  disk : List DiskFile
deriving DecidableEq, Repr

/-- Models `delete_project` of `py_ae_v3.py` (the second definition of the
method, which shadows the earlier one).  The index is validated, the user
is asked for confirmation (default No); on any answer other than Yes the
method returns.  If the file no longer exists a `FileNotFoundError` is
raised and caught, leaving everything unchanged; otherwise the file is
removed, the record is deleted, and the table is repopulated. -/
def delete_project (s : ProjState) (index : Nat) (confirmation : Answer) : ProjState :=
  if index < s.files.length then
    match s.files[index]? with
    | none => s
    | some project_info =>
      if confirmation = Answer.yes then
        if pathExistsB s.disk project_info.path then
          let disk2 := os_remove s.disk project_info.path
          let files2 := s.files.eraseIdx index
          { files := (populate_last_projects_table disk2 files2).1, disk := disk2 }
        else s
      else s
  else s

end PyAeV3

namespace PyAe

/-- The state `delete_project` of `py_ae.py` acts on: the table rows (which
are the only project record store of this version) and the disk. -/
structure ProjTableState where
  rows : List SavedRow
  disk : List DiskFile
deriving DecidableEq, Repr

/-- Models `remove_row` of `py_ae.py`: removes the row at the index when it
is within range. -/
def remove_row (rows : List SavedRow) (index : Nat) : List SavedRow :=
  if index < rows.length then rows.eraseIdx index else rows

/-- Models `delete_project` of `py_ae.py`: confirmation is asked first
(Yes or Cancel); on anything other than Yes the method returns.  Then the
path is read from the row; if it does not exist a message is shown and the
method returns with nothing changed; otherwise the file is removed and the
row deleted. -/
def delete_project (s : ProjTableState) (index : Nat) (confirmation : Answer) :
    ProjTableState :=
  if confirmation = Answer.yes then
    match s.rows[index]? with
    | none => s
    | some row =>
      if pathExistsB s.disk row.path then
        { rows := remove_row s.rows index, disk := os_remove s.disk row.path }
      else s
  else s

end PyAe

/-- Claim C5: `delete_project` deletes the file of the selected project from the
filesystem and removes its record from the projects list and table; if the
user answers anything other than Yes, or the project file no longer exists
on disk, filesystem and project records are left entirely unchanged.  The
first three conjuncts cover `py_ae_v3.py` (where the repopulation after
deletion also keeps every other record whose file still exists), the last
three cover `py_ae.py`. -/
theorem c5_delete_project_behavior :
    (∀ (s : PyAeV3.ProjState) (i : Nat) (a : Answer), a ≠ Answer.yes →
      PyAeV3.delete_project s i a = s)
    ∧ (∀ (s : PyAeV3.ProjState) (i : Nat) (a : Answer) (p : ProjectRec),
        s.files[i]? = some p → pathExistsB s.disk p.path = false →
        PyAeV3.delete_project s i a = s)
    ∧ (∀ (s : PyAeV3.ProjState) (i : Nat) (p : ProjectRec),
        s.files[i]? = some p → pathExistsB s.disk p.path = true →
        (∀ q ∈ s.files.eraseIdx i, q.path ≠ p.path ∧ pathExistsB s.disk q.path = true) →
        PyAeV3.delete_project s i Answer.yes =
          { files := s.files.eraseIdx i, disk := os_remove s.disk p.path })
    ∧ (∀ (s : PyAe.ProjTableState) (i : Nat) (a : Answer), a ≠ Answer.yes →
        PyAe.delete_project s i a = s)
    ∧ (∀ (s : PyAe.ProjTableState) (i : Nat) (a : Answer) (r : SavedRow),
        s.rows[i]? = some r → pathExistsB s.disk r.path = false →
        PyAe.delete_project s i a = s)
    ∧ (∀ (s : PyAe.ProjTableState) (i : Nat) (r : SavedRow),
        s.rows[i]? = some r → pathExistsB s.disk r.path = true →
        PyAe.delete_project s i Answer.yes =
          { rows := s.rows.eraseIdx i, disk := os_remove s.disk r.path }) := by
  refine ⟨?_, ?_, ?_, ?_, ?_, ?_⟩
  · intro s i a ha
    simp only [PyAeV3.delete_project, if_neg ha]
    split
    · split <;> rfl
    · rfl
  · intro s i a p hp hex
    unfold PyAeV3.delete_project
    split
    · rw [hp]
      by_cases ha : a = Answer.yes
      · simp [ha, hex]
      · simp [ha]
    · rfl
  · intro s i p hp hex hall
    have hlt : i < s.files.length := by
      rcases Nat.lt_or_ge i s.files.length with hh | hh
      · exact hh
      · rw [List.getElem?_eq_none hh] at hp
        cases hp
    have hfil : (s.files.eraseIdx i).filter
        (fun q => pathExistsB (os_remove s.disk p.path) q.path) = s.files.eraseIdx i :=
      filter_eq_self_of_all _ _ (fun q hq => by
        rw [pathExistsB_os_remove_ne s.disk p.path q.path (hall q hq).1]
        exact (hall q hq).2)
    simp [PyAeV3.delete_project, hlt, hp, hex, PyAeV3.populate_last_projects_table, hfil]
  · intro s i a ha
    unfold PyAe.delete_project
    rw [if_neg ha]
  · intro s i a r hr hex
    by_cases ha : a = Answer.yes
    · simp [PyAe.delete_project, ha, hr, hex]
    · simp [PyAe.delete_project, ha]
  · intro s i r hr hex
    have hlt : i < s.rows.length := by
      rcases Nat.lt_or_ge i s.rows.length with hh | hh
      · exact hh
      · rw [List.getElem?_eq_none hh] at hr
        cases hr
    simp [PyAe.delete_project, hr, hex, PyAe.remove_row, hlt]

/-- Witness for C5: a concrete two-project state in which the user confirms
deletion of the first project; the file disappears from disk and the
record from the list. -/
theorem c5_witness :
    (PyAeV3.ProjState.mk [⟨"C:/p/A.aep", "marty"⟩, ⟨"C:/p/B.aep", "marty"⟩]
        [⟨"C:/p/A.aep", "aep", "t1"⟩, ⟨"C:/p/B.aep", "aep", "t2"⟩]).files[0]? =
        some ⟨"C:/p/A.aep", "marty"⟩
    ∧ pathExistsB [⟨"C:/p/A.aep", "aep", "t1"⟩, ⟨"C:/p/B.aep", "aep", "t2"⟩]
        "C:/p/A.aep" = true
    ∧ PyAeV3.delete_project
        ⟨[⟨"C:/p/A.aep", "marty"⟩, ⟨"C:/p/B.aep", "marty"⟩],
          [⟨"C:/p/A.aep", "aep", "t1"⟩, ⟨"C:/p/B.aep", "aep", "t2"⟩]⟩ 0 Answer.yes =
      { files := [⟨"C:/p/A.aep", "marty"⟩, ⟨"C:/p/B.aep", "marty"⟩].eraseIdx 0,
        disk := os_remove [⟨"C:/p/A.aep", "aep", "t1"⟩, ⟨"C:/p/B.aep", "aep", "t2"⟩]
          "C:/p/A.aep" } :=
  ⟨by decide, by decide,
    c5_delete_project_behavior.2.2.1
      ⟨[⟨"C:/p/A.aep", "marty"⟩, ⟨"C:/p/B.aep", "marty"⟩],
        [⟨"C:/p/A.aep", "aep", "t1"⟩, ⟨"C:/p/B.aep", "aep", "t2"⟩]⟩ 0
      ⟨"C:/p/A.aep", "marty"⟩ (by decide) (by decide) (by decide)⟩

/-- Mapping with functions that agree on the list gives the same list. -/
theorem map_congr_of_mem {α β : Type} (f g : α → β) (l : List α)
    (h : ∀ a ∈ l, f a = g a) : l.map f = l.map g := by
  induction l with
  | nil => rfl
  | cons a as ih =>
    have ha := h a (by simp)
    have hrest := ih (fun b hb => h b (by simp [hb]))
    simp [ha, hrest]

/-- The copied file exists at its own path. -/
theorem pathExistsB_copyfile_self (disk : List DiskFile) (dst c m : String) :
    pathExistsB (shutil_copyfile disk dst c m) dst = true := by
  simp [pathExistsB, find?_copyfile_self]

/-- The copied file carries the fresh modification time. -/
theorem mtimeOf_copyfile_self (disk : List DiskFile) (dst c m : String) :
    mtimeOf (shutil_copyfile disk dst c m) dst = m := by
  simp [mtimeOf, find?_copyfile_self]

/-- Environment of one `create_new_project_connection` run: the configured
projects folder, the contents of the blank template project file (absent
when the template file is missing, making `shutil.copyfile` raise), the
name entered in the dialog (absent when the dialog was cancelled), the OS
user name from `getpass.getuser()`, and the current time. -/
structure CreateEnv where
  projectsFolder : String
  templateContents : Option String
  dialog : Option String
  userName : String
  now : String
deriving DecidableEq, Repr

namespace PyAeV3

/-- The state `create_new_project_connection` of `py_ae_v3.py` acts on:
the directories that exist, the files on disk, and `last_project_files`. -/
structure CreateState where
  dirs : List String
  disk : List DiskFile
  files : List ProjectRec
deriving DecidableEq, Repr

/-- Models `create_new_project_connection` of `py_ae_v3.py`: the projects
folder is created when missing; when the dialog is confirmed with a
non-empty name, the blank template is copied to `projectsFolder/N.aep`,
and `update_last_projects_list` appends one record (path, creator) and
repopulates the table; any raised exception (missing template) is caught
and leaves the records unchanged. -/
def create_new_project_connection (env : CreateEnv) (s : CreateState) : CreateState :=
  let dirs2 := if s.dirs.contains env.projectsFolder then s.dirs
               else env.projectsFolder :: s.dirs
  match env.dialog with
  | none => { s with dirs := dirs2 }
  | some project_name =>
    if project_name.isEmpty then { s with dirs := dirs2 }
    else
      match env.templateContents with
      | none => { s with dirs := dirs2 }
      | some contents =>
        let new_project_path := env.projectsFolder ++ "/" ++ project_name ++ ".aep"
        let disk2 := shutil_copyfile s.disk new_project_path contents env.now
        let files2 := s.files ++ [⟨new_project_path, env.userName⟩]
        { dirs := dirs2, disk := disk2,
          files := (populate_last_projects_table disk2 files2).1 }

end PyAeV3

namespace PyAe

/-- The state `create_new_project_connection` of `py_ae.py` acts on: the
directories, the disk, and the projects-table rows (this version keeps no
separate record list). -/
structure CreateState where
  dirs : List String
  disk : List DiskFile
  rows : List SavedRow
deriving DecidableEq, Repr

/-- Models `create_new_project_connection` of `py_ae.py`: the projects
folder is created when missing; with a confirmed non-empty name the
template is copied to `projectsFolder/N.aep` and one table row is appended
holding the name, the new path, the `stat` modification time of the new file,
and the user name. -/
def create_new_project_connection (env : CreateEnv) (s : CreateState) : CreateState :=
  let dirs2 := if s.dirs.contains env.projectsFolder then s.dirs
               else env.projectsFolder :: s.dirs
  match env.dialog with
  | none => { s with dirs := dirs2 }
  | some project_name =>
    if project_name.isEmpty then { s with dirs := dirs2 }
    else
      match env.templateContents with
      | none => { s with dirs := dirs2 }
      | some contents =>
        let new_project_path := env.projectsFolder ++ "/" ++ project_name ++ ".aep"
        let disk2 := shutil_copyfile s.disk new_project_path contents env.now
        { dirs := dirs2, disk := disk2,
          rows := s.rows ++
            [⟨project_name, new_project_path, mtimeOf disk2 new_project_path, env.userName⟩] }

end PyAe

/-- Claim C6: for every non-empty project name `N` confirmed by the user,
`create_new_project_connection` creates the configured projects folder if
missing, copies the blank template to `projectsFolder/N.aep` so that the
contents of the new file equal those of the template (with a fresh modification time),
and appends exactly one record to the projects records and one row — made
of the project name, the new path, its modification timestamp, and the OS
user name — to the displayed table.  The first four conjuncts cover
`py_ae_v3.py` (whose repopulation also keeps each previous record whose
file still exists, hence the `hold` hypothesis); the last two cover
`py_ae.py`. -/
theorem c6_create_new_project (env : CreateEnv) (sv : PyAeV3.CreateState)
    (sp : PyAe.CreateState) (N tc : String)
    (hdlg : env.dialog = some N) (hne : ¬N.isEmpty = true)
    (htc : env.templateContents = some tc)
    (hold : ∀ p ∈ sv.files,
      p.path ≠ env.projectsFolder ++ "/" ++ N ++ ".aep"
        ∧ pathExistsB sv.disk p.path = true) :
    (PyAeV3.create_new_project_connection env sv).dirs.contains env.projectsFolder = true
    ∧ (PyAeV3.create_new_project_connection env sv).disk.find?
        (fun f => f.path == env.projectsFolder ++ "/" ++ N ++ ".aep") =
        some ⟨env.projectsFolder ++ "/" ++ N ++ ".aep", tc, env.now⟩
    ∧ (PyAeV3.create_new_project_connection env sv).files =
        sv.files ++ [⟨env.projectsFolder ++ "/" ++ N ++ ".aep", env.userName⟩]
    ∧ (PyAeV3.populate_last_projects_table
        (PyAeV3.create_new_project_connection env sv).disk
        (PyAeV3.create_new_project_connection env sv).files).2 =
        (PyAeV3.populate_last_projects_table sv.disk sv.files).2 ++
          [(pathName (env.projectsFolder ++ "/" ++ N ++ ".aep"),
            env.projectsFolder ++ "/" ++ N ++ ".aep", env.now, env.userName)]
    ∧ (PyAe.create_new_project_connection env sp).rows =
        sp.rows ++
          [⟨N, env.projectsFolder ++ "/" ++ N ++ ".aep", env.now, env.userName⟩]
    ∧ (PyAe.create_new_project_connection env sp).dirs.contains env.projectsFolder = true := by
  have hdirsV : (PyAeV3.create_new_project_connection env sv).dirs =
      (if sv.dirs.contains env.projectsFolder then sv.dirs
       else env.projectsFolder :: sv.dirs) := by
    simp only [PyAeV3.create_new_project_connection, hdlg, htc]
    simp [hne]
  have hdiskV : (PyAeV3.create_new_project_connection env sv).disk =
      shutil_copyfile sv.disk (env.projectsFolder ++ "/" ++ N ++ ".aep") tc env.now := by
    simp only [PyAeV3.create_new_project_connection, hdlg, htc]
    simp [hne]
  have hexAll : ∀ q ∈ sv.files ++
      [(⟨env.projectsFolder ++ "/" ++ N ++ ".aep", env.userName⟩ : ProjectRec)],
      pathExistsB
        (shutil_copyfile sv.disk (env.projectsFolder ++ "/" ++ N ++ ".aep") tc env.now)
        q.path = true := by
    intro q hq
    rcases List.mem_append.mp hq with hq | hq
    · rw [pathExistsB_copyfile_ne sv.disk _ tc env.now q.path (hold q hq).1]
      exact (hold q hq).2
    · have hq2 : q = (⟨env.projectsFolder ++ "/" ++ N ++ ".aep", env.userName⟩ : ProjectRec) := by
        simpa using hq
      subst hq2
      exact pathExistsB_copyfile_self sv.disk _ tc env.now
  have hfil : (sv.files ++
      [(⟨env.projectsFolder ++ "/" ++ N ++ ".aep", env.userName⟩ : ProjectRec)]).filter
        (fun q => pathExistsB
          (shutil_copyfile sv.disk (env.projectsFolder ++ "/" ++ N ++ ".aep") tc env.now)
          q.path) =
      sv.files ++ [(⟨env.projectsFolder ++ "/" ++ N ++ ".aep", env.userName⟩ : ProjectRec)] :=
    filter_eq_self_of_all _ _ hexAll
  have hfilesV : (PyAeV3.create_new_project_connection env sv).files =
      sv.files ++ [⟨env.projectsFolder ++ "/" ++ N ++ ".aep", env.userName⟩] := by
    simp only [PyAeV3.create_new_project_connection, hdlg, htc]
    simp [hne, PyAeV3.populate_last_projects_table, hfil]
  have hfilOld : sv.files.filter (fun p => pathExistsB sv.disk p.path) = sv.files :=
    filter_eq_self_of_all _ _ (fun p hp => (hold p hp).2)
  refine ⟨?_, ?_, hfilesV, ?_, ?_, ?_⟩
  · rw [hdirsV]
    by_cases hc : env.projectsFolder ∈ sv.dirs <;> simp [hc]
  · rw [hdiskV]
    exact find?_copyfile_self sv.disk _ tc env.now
  · rw [hdiskV, hfilesV]
    have hrows : (PyAeV3.populate_last_projects_table
        (shutil_copyfile sv.disk (env.projectsFolder ++ "/" ++ N ++ ".aep") tc env.now)
        (sv.files ++ [(⟨env.projectsFolder ++ "/" ++ N ++ ".aep", env.userName⟩ : ProjectRec)])).2 =
        ((sv.files ++ [(⟨env.projectsFolder ++ "/" ++ N ++ ".aep", env.userName⟩ : ProjectRec)]).map
          (PyAeV3.projectRow
            (shutil_copyfile sv.disk (env.projectsFolder ++ "/" ++ N ++ ".aep") tc env.now))) := by
      simp [PyAeV3.populate_last_projects_table, foldl_push_eq_map, hfil]
    rw [hrows, List.map_append]
    have hmapOld : sv.files.map (PyAeV3.projectRow
        (shutil_copyfile sv.disk (env.projectsFolder ++ "/" ++ N ++ ".aep") tc env.now)) =
        sv.files.map (PyAeV3.projectRow sv.disk) :=
      map_congr_of_mem _ _ _ (fun p hp => by
        simp [PyAeV3.projectRow,
          mtimeOf_copyfile_ne sv.disk _ tc env.now p.path (hold p hp).1])
    rw [hmapOld]
    have hrowsOld : (PyAeV3.populate_last_projects_table sv.disk sv.files).2 =
        sv.files.map (PyAeV3.projectRow sv.disk) := by
      simp [PyAeV3.populate_last_projects_table, foldl_push_eq_map, hfilOld]
    rw [hrowsOld]
    simp [PyAeV3.projectRow, mtimeOf_copyfile_self]
  · simp only [PyAe.create_new_project_connection, hdlg, htc]
    simp [hne, mtimeOf_copyfile_self]
  · have hdirsP : (PyAe.create_new_project_connection env sp).dirs =
        (if sp.dirs.contains env.projectsFolder then sp.dirs
         else env.projectsFolder :: sp.dirs) := by
      simp only [PyAe.create_new_project_connection, hdlg, htc]
      simp [hne]
    rw [hdirsP]
    by_cases hc : env.projectsFolder ∈ sp.dirs <;> simp [hc]

/-- Witness for C6: with projects folder "C:/projects", template contents
"BLANKAEP", and confirmed name "Shot01", creating a project appends exactly
the record for "C:/projects/Shot01.aep" to the record list. -/
theorem c6_witness :
    (CreateEnv.mk "C:/projects" (some "BLANKAEP") (some "Shot01") "marty" "t1").dialog =
        some "Shot01"
    ∧ ¬("Shot01".isEmpty = true)
    ∧ (CreateEnv.mk "C:/projects" (some "BLANKAEP") (some "Shot01") "marty"
        "t1").templateContents = some "BLANKAEP"
    ∧ (∀ p ∈ [(⟨"C:/projects/Old.aep", "marty"⟩ : ProjectRec)],
        p.path ≠ "C:/projects/Shot01.aep"
          ∧ pathExistsB [⟨"C:/projects/Old.aep", "aep", "t0"⟩] p.path = true)
    ∧ (PyAeV3.create_new_project_connection
        ⟨"C:/projects", some "BLANKAEP", some "Shot01", "marty", "t1"⟩
        ⟨[], [⟨"C:/projects/Old.aep", "aep", "t0"⟩],
          [⟨"C:/projects/Old.aep", "marty"⟩]⟩).files =
      [⟨"C:/projects/Old.aep", "marty"⟩, ⟨"C:/projects/Shot01.aep", "marty"⟩] :=
  ⟨rfl, by decide, rfl, by decide,
    (c6_create_new_project
      ⟨"C:/projects", some "BLANKAEP", some "Shot01", "marty", "t1"⟩
      ⟨[], [⟨"C:/projects/Old.aep", "aep", "t0"⟩], [⟨"C:/projects/Old.aep", "marty"⟩]⟩
      ⟨[], [], []⟩ "Shot01" "BLANKAEP" rfl (by decide) rfl (by decide)).2.2.1⟩

namespace PyAeV3

/-- Models one run of `AfterEffectsThread` of `py_ae_v3.py`: the stored
command list is executed as an argument vector by `subprocess.run`; a
`CalledProcessError` from a non-zero exit is caught and printed, and the
`finally` block emits the parameterless `finished` signal exactly once in
either case.  Returns what was executed and the list of emissions. -/
def afterEffectsThread_run (command : List String) (res : RunRes) : Cmd × List Unit :=
  let executed := Cmd.argv command
  match res with
  | RunRes.success => (executed, [()])
  | RunRes.nonzeroExit => (executed, [()])

/-- Models `run_after_effects_command_async` of `py_ae_v3.py`: an
`AfterEffectsThread` is created with the given command and started. -/
def run_after_effects_command_async (command : List String) (res : RunRes) :
    Cmd × List Unit :=
  afterEffectsThread_run command res

end PyAeV3

namespace PyAe

/-- Models the constructor of `AfterEffectsThread` of `py_ae.py`: the
command list is collapsed to a single space-separated string by the join
call in the constructor. -/
def afterEffectsThread_command (command : List String) : String :=
  String.intercalate " " command

/-- Models one run of `AfterEffectsThread` of `py_ae.py`: the joined
command-line string is executed, and the bool-carrying `finished` signal
is emitted with `True` on success and `False` on a non-zero exit. -/
def afterEffectsThread_run (command : List String) (res : RunRes) : Cmd × List Bool :=
  match res with
  | RunRes.success => (Cmd.line (afterEffectsThread_command command), [true])
  | RunRes.nonzeroExit => (Cmd.line (afterEffectsThread_command command), [false])

end PyAe

/-- Claim C7 (code bug in `py_ae.py`): evaluation at the failing input.  The
`py_ae.py` thread joins the argument list with spaces, so the very command
`py_ae.py` itself builds — whose executable path contains the space in
"Program Files" — is executed as a single command line from which the
original element boundaries cannot be recovered (two different argument
lists collapse to the same line).  The `py_ae_v3.py` thread executes
exactly the provided list and emits `finished` exactly once, both on
success and on a non-zero exit; the `py_ae.py` thread also emits exactly
once in those two cases. -/
theorem c7_thread_join_bug :
    PyAe.afterEffectsThread_command
        ["C:/Program Files/Adobe/Adobe After Effects 2024/Support Files/AfterFX.exe",
          "-r", "import.jsx"] =
      "C:/Program Files/Adobe/Adobe After Effects 2024/Support Files/AfterFX.exe -r import.jsx"
    ∧ PyAe.afterEffectsThread_command ["C:/Program Files/AfterFX.exe", "-r"] =
        PyAe.afterEffectsThread_command ["C:/Program", "Files/AfterFX.exe", "-r"]
    ∧ (["C:/Program Files/AfterFX.exe", "-r"] : List String) ≠
        ["C:/Program", "Files/AfterFX.exe", "-r"]
    ∧ PyAeV3.run_after_effects_command_async ["C:/Program Files/AfterFX.exe", "-r"]
        RunRes.success =
        (Cmd.argv ["C:/Program Files/AfterFX.exe", "-r"], [()])
    ∧ PyAeV3.run_after_effects_command_async ["C:/Program Files/AfterFX.exe", "-r"]
        RunRes.nonzeroExit =
        (Cmd.argv ["C:/Program Files/AfterFX.exe", "-r"], [()])
    ∧ PyAe.afterEffectsThread_run ["C:/Program Files/AfterFX.exe", "-r"] RunRes.success =
        (Cmd.line "C:/Program Files/AfterFX.exe -r", [true])
    ∧ PyAe.afterEffectsThread_run ["C:/Program Files/AfterFX.exe", "-r"] RunRes.nonzeroExit =
        (Cmd.line "C:/Program Files/AfterFX.exe -r", [false]) :=
  ⟨rfl, rfl, by decide, rfl, rfl, rfl, rfl⟩

namespace PyAe

/-- Models the `corrected_path` computation of `execute_jsx_script` in
`py_ae.py`: the replace call maps each occurrence of "//" to "////" in
the file path.  This replaces a double
forward slash by four slashes and escapes nothing else (unlike the
backslash-doubling of `py_ae_v3.py`). -/
def corrected_path (file_path : String) : String :=
  pyReplace file_path "//" "////"

end PyAe

/-- Claim C4 (code bug in `py_ae.py`): evaluation at the failing input.  On
the UNC asset path "//server/share/a.png" the `py_ae.py` escaping turns the
path into "////server/share/a.png", so the generated snippet no longer
references the given path; the remaining conjuncts show the `py_ae_v3.py`
behaviour the claim describes: backslash separators are doubled (and a
path without backslashes is untouched), the script file carries the ".jsx"
suffix, the written snippet contains the escaped path, and the host is
launched with exactly `[executable, "-r", script path]`. -/
theorem c4_jsx_escape_bug :
    PyAe.corrected_path "//server/share/a.png" = "////server/share/a.png"
    ∧ PyAe.corrected_path "//server/share/a.png" ≠ "//server/share/a.png"
    ∧ PyAeV3.corrected_path "C:\\assets\\a.png" = "C:\\\\assets\\\\a.png"
    ∧ PyAeV3.corrected_path "C:/assets/a.png" = "C:/assets/a.png"
    ∧ PyAeV3.mktemp_jsx "C:/tmp/tmpab12" = "C:/tmp/tmpab12.jsx"
    ∧ (PyAeV3.execute_jsx_script "C:/ae/AfterFX.exe" "C:/assets/a.png"
        (PyAeV3.mktemp_jsx "C:/tmp/tmpab12")).2 =
        ["C:/ae/AfterFX.exe", "-r", "C:/tmp/tmpab12.jsx"]
    ∧ pyStrIn (PyAeV3.corrected_path "C:/assets/a.png")
        (PyAeV3.execute_jsx_script "C:/ae/AfterFX.exe" "C:/assets/a.png"
          (PyAeV3.mktemp_jsx "C:/tmp/tmpab12")).1 = true :=
  ⟨by decide, by decide, by decide, by decide, rfl, rfl, by decide⟩
